import Mathlib

/-!
Verification of the Argo profile-to-row normalization pipeline
(`extract_indian_ocean_data.py` and `ingest_postgres_only.py`).

The Python code is shallowly embedded as follows.

* Python floats are modelled by `Argo.PyFloat`: a finite rational, NaN,
  or one of the two infinities.  IEEE comparison semantics (every
  comparison involving NaN is false, infinities compare as usual) are
  given by `PyFloat.lt` / `PyFloat.le`.  `np.isnan` is true exactly on
  NaN — in particular it is FALSE on the infinities.
* An element of a (possibly masked) 1-D numpy array is `Argo.Elem`:
  either a masked slot, a numeric value, or a non-numeric (byte-string)
  value.  A masked slot conflates the mask bit and the data under it;
  no code path in this repository reads the data under a set mask bit
  of the element itself.
* A 1-D array-like is `Argo.MArr`: a `hasMask` flag (does the object
  have a `.mask` attribute, i.e. is it a `numpy.ma` masked array) and
  the element list.  `Argo.Value` is a scalar-or-array union, the
  argument type of `safe_float_conversion` / `safe_isnan`.
* Exceptions are `Except Unit` results; a Python `try/except` that
  swallows an error and returns a default becomes a total function
  returning that default.
* Timestamps are rational day counts since 1970-01-01.  The calendar
  conversions use the standard civil-from-days / days-from-civil integer
  algorithms, matching `pd.to_datetime(s, format="%Y%m%d%H%M%S")` and
  `Timestamp.year`.  `pd.to_timedelta(x, unit="D")` converts a finite
  float to a day offset and raises for an infinite float (the
  conversion `int(inf)` inside `cast_from_unit` raises OverflowError);
  NaN would give NaT, but every caller in this repository guards the
  offset with `np.ma.is_masked`/`safe_isnan` first, so that branch is
  unreachable and is modelled as a rejection as well.
* The NetCDF source is `Argo.NCFile`: the set of available variable
  names (driving alias resolution exactly as in the source), the file
  name, the decoded `REFERENCE_DATE_TIME` string, and the per-profile
  raw data after the scalar/array normalization step (single- versus
  multi-profile indexing), which no claim under test depends on.
-/

namespace Argo

/-- A Python/numpy floating-point value: finite rational, NaN, or ±∞. -/
inductive PyFloat where
  | fin (q : ℚ)
  | nan
  | posInf
  | negInf
deriving DecidableEq, Repr

/-- `np.isnan` / `math.isnan`: true exactly on NaN (false on ±∞). -/
def PyFloat.isNan : PyFloat → Bool
  | .nan => true
  | _ => false

/-- Finiteness of a float (true exactly on finite rationals). -/
def PyFloat.isFinite : PyFloat → Bool
  | .fin _ => true
  | _ => false

/-- IEEE-754 `<`: false whenever NaN is involved, infinities as usual. -/
def PyFloat.lt : PyFloat → PyFloat → Bool
  | .fin a, .fin b => decide (a < b)
  | .fin _, .posInf => true
  | .negInf, .fin _ => true
  | .negInf, .posInf => true
  | _, _ => false

/-- IEEE-754 `≤`: false whenever NaN is involved, infinities as usual. -/
def PyFloat.le : PyFloat → PyFloat → Bool
  | .fin a, .fin b => decide (a ≤ b)
  | .fin _, .posInf => true
  | .negInf, .fin _ => true
  | .negInf, .posInf => true
  | .posInf, .posInf => true
  | .negInf, .negInf => true
  | _, _ => false

/-- One element of a 1-D array-like value: a masked slot, a numeric
value, or a non-numeric (byte-string) value. -/
inductive Elem where
  | masked
  | val (x : PyFloat)
  | bstr (s : String)
deriving DecidableEq, Repr

/-- Is the element a masked slot (`np.ma.is_masked` on the element)? -/
def Elem.isMasked : Elem → Bool
  | .masked => true
  | _ => false

/-- Is the element non-numeric (so that `np.isnan`/`float` on it raise)? -/
def Elem.isBstr : Elem → Bool
  | .bstr _ => true
  | _ => false

/-- Is the element numeric (a masked slot or a float value)? -/
def Elem.isNumeric : Elem → Bool
  | .bstr _ => false
  | _ => true

/-- A 1-D array-like: `hasMask` says whether the object is a masked
array (has a `.mask` attribute); `elems` are its elements. -/
structure MArr where
  hasMask : Bool
  elems : List Elem
deriving DecidableEq, Repr

/-- `np.ma.masked_all_like(a)`: an all-masked array of the same length,
used for an optional variable that is absent from the file. -/
def MArr.maskedAllLike (a : MArr) : MArr :=
  ⟨true, a.elems.map (fun _ => Elem.masked)⟩

/-- A scalar-or-array union: the argument type of the guard helpers. -/
inductive Value where
  | scalar (e : Elem)
  | arr (a : MArr)
deriving DecidableEq, Repr

/-- `float(e)` on a single element: succeeds exactly on numeric values
(NaN and the infinities convert to themselves), raises on a masked
constant or a byte string (modelled as `none`). -/
def scalarFloat : Elem → Option PyFloat
  | .masked => none
  | .val x => some x
  | .bstr _ => none

/-- ASCII lower-casing of one character (`str.lower` restricted to the
ASCII variable names this repository deals with). -/
def lowerChar (c : Char) : Char :=
  if 'A' ≤ c ∧ c ≤ 'Z' then Char.ofNat (c.toNat + 32) else c

/-- `str.lower()`. -/
def pyLower (s : String) : String :=
  String.mk (s.toList.map lowerChar)

/-- The whitespace stripped by `str.strip()`. -/
def isSpaceChar (c : Char) : Bool :=
  c = ' ' ∨ c = '\t' ∨ c = '\n' ∨ c = '\r'

/-- `str.strip()`: drop leading and trailing whitespace. -/
def pyStrip (s : String) : String :=
  String.mk (((s.toList.dropWhile isSpaceChar).reverse.dropWhile isSpaceChar).reverse)

/-- Is the first list a prefix of the second (Boolean)? -/
def isPrefixOfL : List Char → List Char → Bool
  | [], _ => true
  | _ :: _, [] => false
  | p :: ps, c :: cs => p = c && isPrefixOfL ps cs

/-- Fuelled core of `str.replace`: left-to-right, non-overlapping
replacement of a non-empty pattern. -/
def replaceFuel (pat rep : List Char) : Nat → List Char → List Char
  | 0, s => s
  | _ + 1, [] => []
  | n + 1, c :: cs =>
    if isPrefixOfL pat (c :: cs) then
      rep ++ replaceFuel pat rep n (List.drop (pat.length - 1) cs)
    else c :: replaceFuel pat rep n cs

/-- `s.replace(pat, rep)` for a non-empty `pat` (every use in this
repository has a non-empty pattern). -/
def pyReplace (s pat rep : String) : String :=
  String.mk (replaceFuel pat.toList rep.toList (s.toList.length + 1) s.toList)

/-- `find_variable_case_insensitive(target_vars, available_vars)`:
first target (in preference order) whose lower-cased name equals the
lower-cased name of some available variable; returns that available
variable's actual name. -/
def find_variable_case_insensitive (targets avail : List String) : Option String :=
  targets.findSome? (fun t => avail.find? (fun a => pyLower a == pyLower t))

/-- `mask_check(array, idx)`: if the object has a `.mask` attribute,
read `mask[idx]` and convert to `bool`, returning `False` on any
exception (e.g. an out-of-range index); otherwise `False`. -/
def mask_check (a : MArr) (idx : Nat) : Bool :=
  if a.hasMask then
    match a.elems[idx]? with
    | some e => e.isMasked
    | none => false
  else false

/-- The per-element core of `safe_isnan`: masked slots count (their
mask bit feeds `np.logical_or`), NaN counts, anything else (finite,
infinite, or non-numeric) does not. -/
def safe_isnan_elem : Elem → Bool
  | .masked => true
  | .val x => x.isNan
  | .bstr _ => false

/-- `safe_isnan(value)`: for a masked array, `np.all(np.logical_or(mask,
np.isnan(data)))`; for a plain array, `np.all(np.isnan(value))`; for a
scalar, `np.isnan(value)`; any exception (non-numeric data) yields
`False`. -/
def safe_isnan : Value → Bool
  | .scalar e => safe_isnan_elem e
  | .arr a =>
    if a.elems.any Elem.isBstr then false
    else a.elems.all safe_isnan_elem

/-- `safe_float_conversion(value)` as written in
`extract_indian_ocean_data.py`: size-1 array-likes yield the float of
their single element; a genuinely multi-element masked array yields the
float of its first unmasked element (or `None` if all are masked); a
multi-element plain array yields its first non-NaN element (or `None`);
a scalar converts directly; every exception yields `None`. -/
def safe_float_conversion : Value → Option PyFloat
  | .scalar e => scalarFloat e
  | .arr a =>
    if a.elems.length = 1 then
      match a.elems[0]? with
      | some e => scalarFloat e
      | none => none
    else
      if a.hasMask then
        match a.elems.find? (fun e => !e.isMasked) with
        | some e => scalarFloat e
        | none => none
      else
        if a.elems.any Elem.isBstr then none
        else
          match a.elems.find? (fun e => !safe_isnan_elem e) with
          | some e => scalarFloat e
          | none => none

/-- `safe_float_conversion(value)` as written in
`ingest_postgres_only.py`: the same selection logic, but every failure
path — including the all-missing multi-element case — executes `raise
ValueError(...)`, modelled as `Except.error ()`. -/
def safe_float_conversion_ingest : Value → Except Unit PyFloat
  | .scalar e =>
    match scalarFloat e with
    | some x => .ok x
    | none => .error ()
  | .arr a =>
    if a.elems.length = 1 then
      match a.elems[0]? with
      | some e =>
        match scalarFloat e with
        | some x => .ok x
        | none => .error ()
      | none => .error ()
    else
      if a.hasMask then
        match a.elems.find? (fun e => !e.isMasked) with
        | some e =>
          match scalarFloat e with
          | some x => .ok x
          | none => .error ()
        | none => .error ()
      else
        if a.elems.any Elem.isBstr then .error ()
        else
          match a.elems.find? (fun e => !safe_isnan_elem e) with
          | some e =>
            match scalarFloat e with
            | some x => .ok x
            | none => .error ()
          | none => .error ()

/-- `is_indian_ocean(latitude, longitude)`: the inclusive bounding box
`20 ≤ lon ≤ 140 ∧ -70 ≤ lat ≤ 30` under IEEE comparisons (so any NaN
or out-of-box infinite coordinate fails the chain). -/
def is_indian_ocean (latitude longitude : PyFloat) : Bool :=
  (PyFloat.le (.fin 20) longitude && PyFloat.le longitude (.fin 140)) &&
    (PyFloat.le (.fin (-70)) latitude && PyFloat.le latitude (.fin 30))

/-- Exact rational addition, written through `mkRat` so that it is
kernel-reducible (`Rat.add` is irreducible); `ratAdd_eq_add` below
proves it equal to `+`. -/
def ratAdd (a b : ℚ) : ℚ :=
  mkRat (a.num * (b.den : ℤ) + b.num * (a.den : ℤ)) (a.den * b.den)

/-- Value of a run of decimal digits, `foldl` by base 10. -/
def digitsToNat (cs : List Char) : Nat :=
  cs.foldl (fun a c => 10 * a + (c.toNat - 48)) 0

/-- Gregorian leap-year predicate. -/
def isLeapYear (y : ℤ) : Bool :=
  (Int.emod y 4 == 0 && Int.emod y 100 != 0) || Int.emod y 400 == 0

/-- Length of a month of the Gregorian calendar. -/
def daysInMonth (y m : ℤ) : ℤ :=
  if m = 2 then (if isLeapYear y then 29 else 28)
  else if m = 4 ∨ m = 6 ∨ m = 9 ∨ m = 11 then 30 else 31

/-- Days since 1970-01-01 of the civil date `y-m-d` (the standard
days-from-civil algorithm on floor divisions). -/
def daysFromCivil (y m d : ℤ) : ℤ :=
  let y2 := if m ≤ 2 then y - 1 else y
  let era := Int.ediv y2 400
  let yoe := y2 - era * 400
  let mp := if m ≤ 2 then m + 9 else m - 3
  let doy := Int.ediv (153 * mp + 2) 5 + d - 1
  let doe := yoe * 365 + Int.ediv yoe 4 - Int.ediv yoe 100 + doy
  era * 146097 + doe - 719468

/-- Calendar year of the day `z` (days since 1970-01-01; the standard
civil-from-days algorithm).  This is `Timestamp.year`. -/
def yearFromDays (z : ℤ) : ℤ :=
  let z2 := z + 719468
  let era := Int.ediv z2 146097
  let doe := z2 - era * 146097
  let yoe :=
    Int.ediv (doe - Int.ediv doe 1460 + Int.ediv doe 36524 - Int.ediv doe 146096) 365
  let y := yoe + era * 400
  let doy := doe - (365 * yoe + Int.ediv yoe 4 - Int.ediv yoe 100)
  let mp := Int.ediv (5 * doy + 2) 153
  let m := if mp < 10 then mp + 3 else mp - 9
  if m ≤ 2 then y + 1 else y

/-- `pd.to_datetime(s, format="%Y%m%d%H%M%S")`: the string must be
exactly 14 decimal digits encoding a valid calendar date and time of
day within the `Timestamp` nanosecond range, else the call raises
(modelled as `none`).  The result is a rational day count since
1970-01-01. -/
def parseRefDate (s : String) : Option ℚ :=
  let cs := s.toList
  if cs.length = 14 ∧ cs.all Char.isDigit then
    let y : ℤ := digitsToNat (cs.take 4)
    let mo : ℤ := digitsToNat ((cs.drop 4).take 2)
    let d : ℤ := digitsToNat ((cs.drop 6).take 2)
    let h : ℤ := digitsToNat ((cs.drop 8).take 2)
    let mi : ℤ := digitsToNat ((cs.drop 10).take 2)
    let sec : ℤ := digitsToNat ((cs.drop 12).take 2)
    if 1 ≤ mo ∧ mo ≤ 12 ∧ 1 ≤ d ∧ d ≤ daysInMonth y mo ∧ h ≤ 23 ∧ mi ≤ 59 ∧
        sec ≤ 59 ∧ 1678 ≤ y ∧ y ≤ 2261 then
      some (ratAdd (daysFromCivil y mo d : ℚ) (mkRat (h * 3600 + mi * 60 + sec) 86400))
    else none
  else none

/-- `pd.to_timedelta(float(x), unit="D")`.  A finite float becomes a
day offset.  An infinite float raises (`cast_from_unit` executes
`int(inf)` → OverflowError), modelled as an error.  A NaN float would
yield NaT; both callers in this repository guard the offset with
`np.ma.is_masked`/`safe_isnan` before converting, so the NaN branch is
unreachable and is likewise modelled as an error. -/
def toTimedeltaDays : PyFloat → Except Unit ℚ
  | .fin q => .ok q
  | _ => .error ()

/-- `is_year_range_2020_2025(measurement_date)` on a valid timestamp
given as rational days since 1970-01-01. -/
def is_year_range_2020_2025 (q : ℚ) : Bool :=
  let y := yearFromDays (Rat.floor q)
  decide (2020 ≤ y) && decide (y ≤ 2025)

/-- The raw platform-id variable value: either a scalar whose string
form is taken directly, or an iterable of byte/character codes, each
already decoded to its text. -/
inductive PlatformRaw where
  | scalarStr (s : String)
  | chars (cs : List String)
deriving DecidableEq, Repr

/-- The identity decode common to both scripts: join the character
codes, skipping elements equal to a space, then strip; a scalar is
stringified and stripped. -/
def decodePlatformRaw : PlatformRaw → String
  | .scalarStr s => pyStrip s
  | .chars cs => pyStrip (String.join (cs.filter (fun c => c ≠ " ")))

/-- `re.search(r"([0-9]{7,8})", filename)`: scan positions left to
right; at the first position where at least 7 decimal digits start,
match greedily up to 8 of them. -/
def digitRun7or8 : List Char → Option (List Char)
  | [] => none
  | c :: rest =>
    let run := (c :: rest).takeWhile Char.isDigit
    if 7 ≤ run.length then some (run.take 8)
    else digitRun7or8 rest

/-- Platform-id resolution in `extract_indian_ocean_data.py`: decoded
value, else the first 7–8-digit run of the filename, else
`filename.replace(".nc", "")`. -/
def platform_id_extract (raw : PlatformRaw) (filename : String) : String :=
  let pid := decodePlatformRaw raw
  if pid = "" ∨ pid = "None" then
    match digitRun7or8 filename.toList with
    | some m => String.mk m
    | none => pyReplace filename ".nc" ""
  else pid

/-- Platform-id resolution in `ingest_postgres_only.py`: decoded value,
else the first 7–8-digit run of the filename, else
`filename.replace(".nc", "").replace("nodc_", "").replace("D", "").replace("R", "")`. -/
def platform_id_ingest (raw : PlatformRaw) (filename : String) : String :=
  let pid := decodePlatformRaw raw
  if pid = "" ∨ pid = "None" then
    match digitRun7or8 filename.toList with
    | some m => String.mk m
    | none =>
      pyReplace (pyReplace (pyReplace (pyReplace filename ".nc" "") "nodc_" "") "D" "") "R" ""
  else pid

/-- An emitted measurement row.  The timestamp is rational days since
1970-01-01 (its `"%Y-%m-%d %H:%M:%S"` serialization and the derived
`year` column of the CSV variant are presentation-only and carry no
additional information). -/
structure Row where
  platform_id : String
  timestamp : ℚ
  latitude : PyFloat
  longitude : PyFloat
  pressure_dbar : PyFloat
  temperature_celsius : Option PyFloat
  salinity_psu : Option PyFloat
deriving DecidableEq, Repr

/-- One profile's raw data after the scalar/array normalization step
(profile indexing for multi-profile files, degenerate indexing for
single-profile files). -/
structure RawProfile where
  platform : PlatformRaw
  juld : Elem
  lat : Elem
  lon : Elem
  pressure : MArr
  temperature : MArr
  salinity : MArr
deriving DecidableEq, Repr

/-- The per-level value of an optional variable (temperature or
salinity) inside the row loop:

    if var and not (mask_check(arr, j) or safe_isnan(arr[j])):
        v = safe_float_conversion(arr[j])
    else:
        v = None

`.ok none` is an absent field, `.ok (some x)` a present one, `.error`
an exception aborting the level (an out-of-range `arr[j]`, or — in the
ingest variant only, whose `safe_float_conversion` raises exactly where
the extract variant returns `None` — a failed conversion). -/
def optLevelVal (ingestVariant resolved : Bool) (a : MArr) (j : Nat) :
    Except Unit (Option PyFloat) :=
  if resolved then
    if mask_check a j then .ok none
    else
      match a.elems[j]? with
      | none => .error ()
      | some e =>
        if safe_isnan (.scalar e) then .ok none
        else
          match safe_float_conversion (.scalar e) with
          | some x => .ok (some x)
          | none => if ingestVariant then .error () else .ok none
  else .ok none

/-- The per-level pressure gate of the row loop: skip the level when
the element is masked or NaN, when the conversion fails (`None` in the
extract variant, a caught exception in the ingest variant), or when the
converted value is negative. -/
def pressureLevelVal (ingestVariant : Bool) (a : MArr) (j : Nat) :
    Except Unit (Option PyFloat) :=
  if mask_check a j then .ok none
  else
    match a.elems[j]? with
    | none => .error ()
    | some e =>
      if safe_isnan (.scalar e) then .ok none
      else
        match safe_float_conversion (.scalar e) with
        | some p => if PyFloat.lt p (.fin 0) then .ok none else .ok (some p)
        | none => if ingestVariant then .error () else .ok none

/-- The body of the row loop at level `j`: the level's
`(pressure, temperature, salinity)` triple when a row is emitted,
`none` when the level is skipped (by the pressure gate or by an
exception caught by the per-level handler). -/
def levelTriple (ingestVariant tR sR : Bool) (pa ta sa : MArr) (j : Nat) :
    Option (PyFloat × Option PyFloat × Option PyFloat) :=
  match pressureLevelVal ingestVariant pa j with
  | .error _ => none
  | .ok none => none
  | .ok (some p) =>
    match optLevelVal ingestVariant tR ta j with
    | .error _ => none
    | .ok t =>
      match optLevelVal ingestVariant sR sa j with
      | .error _ => none
      | .ok s => some (p, t, s)

/-- The rows of one accepted profile: the row loop over all level
indices, attaching the profile's identity, timestamp and coordinates. -/
def emitRows (ingestVariant tR sR : Bool) (pa ta sa : MArr) (pid : String)
    (ts : ℚ) (lat lon : PyFloat) : List Row :=
  ((List.range pa.elems.length).filterMap (levelTriple ingestVariant tR sR pa ta sa)).map
    (fun pts =>
      { platform_id := pid, timestamp := ts, latitude := lat, longitude := lon,
        pressure_dbar := pts.1, temperature_celsius := pts.2.1,
        salinity_psu := pts.2.2 })

/-- The per-profile body of `extract_indian_ocean_data_from_file`, in
source order: coordinate conversion (an unconvertible coordinate raises
and the per-profile handler skips the profile), platform id, reference
date parse, JULD guard, `float(juld)`, day-offset conversion, the
2020–2025 year filter, the Indian-Ocean bounding-box filter, then the
row loop.  `tR`/`sR` say whether the temperature/salinity variable was
resolved; an unresolved one is replaced by `np.ma.masked_all_like`. -/
def extractProfileRows (filename refStr : String) (tR sR : Bool)
    (p : RawProfile) : List Row :=
  match scalarFloat p.lat with
  | none => []
  | some lat =>
    match scalarFloat p.lon with
    | none => []
    | some lon =>
      let pid := platform_id_extract p.platform filename
      match parseRefDate refStr with
      | none => []
      | some base =>
        if p.juld.isMasked || safe_isnan (.scalar p.juld) then []
        else
          match scalarFloat p.juld with
          | none => []
          | some jx =>
            match toTimedeltaDays jx with
            | .error _ => []
            | .ok off =>
              if !is_year_range_2020_2025 (ratAdd base off) then []
              else if !is_indian_ocean lat lon then []
              else
                let ta := if tR then p.temperature else p.pressure.maskedAllLike
                let sa := if sR then p.salinity else p.pressure.maskedAllLike
                emitRows false tR sR p.pressure ta sa pid (ratAdd base off) lat lon

/-- `valid_count` of `process_argo_file`: `~pressure.mask` summed for a
masked array, `~np.isnan(pressure)` summed for a plain one; any
exception (non-numeric data) yields 0 and the profile is skipped. -/
def validPressureCount (a : MArr) : Nat :=
  if a.hasMask then (a.elems.filter (fun e => !e.isMasked)).length
  else if a.elems.any Elem.isBstr then 0
  else (a.elems.filter (fun e => !safe_isnan_elem e)).length

/-- The per-profile body of `process_argo_file`, in source order:
coordinate conversion, platform id, reference date parse, JULD guard,
day-offset conversion, the NaN-coordinate guard, the any-valid-pressure
guard, then the row loop.  There is no geographic or temporal filter in
this variant. -/
def ingestProfileRows (filename refStr : String) (tR sR : Bool)
    (p : RawProfile) : List Row :=
  match scalarFloat p.lat with
  | none => []
  | some lat =>
    match scalarFloat p.lon with
    | none => []
    | some lon =>
      let pid := platform_id_ingest p.platform filename
      match parseRefDate refStr with
      | none => []
      | some base =>
        if p.juld.isMasked || safe_isnan (.scalar p.juld) then []
        else
          match scalarFloat p.juld with
          | none => []
          | some jx =>
            match toTimedeltaDays jx with
            | .error _ => []
            | .ok off =>
              if lat.isNan || lon.isNan then []
              else if validPressureCount p.pressure = 0 then []
              else
                let ta := if tR then p.temperature else p.pressure.maskedAllLike
                let sa := if sR then p.salinity else p.pressure.maskedAllLike
                emitRows true tR sR p.pressure ta sa pid (ratAdd base off) lat lon

/-- A NetCDF source file, reduced to what the pipelines consume: the
available variable names (for alias resolution), the base name of the
file, the decoded `REFERENCE_DATE_TIME` string, and the normalized
per-profile raw data. -/
structure NCFile where
  availableVars : List String
  filename : String
  refDateStr : String
  profiles : List RawProfile
deriving DecidableEq, Repr

/-- Resolution of the six required roles, exactly as both scripts check
them with `find_variable_case_insensitive`. -/
def requiredVarsResolved (avail : List String) : Bool :=
  (find_variable_case_insensitive ["PRES_ADJUSTED", "PRES"] avail).isSome &&
  (find_variable_case_insensitive ["PLATFORM_NUMBER", "FLOAT_SERIAL_NO", "WMO_INST_TYPE"]
    avail).isSome &&
  (find_variable_case_insensitive ["JULD"] avail).isSome &&
  (find_variable_case_insensitive ["LATITUDE"] avail).isSome &&
  (find_variable_case_insensitive ["LONGITUDE"] avail).isSome &&
  (find_variable_case_insensitive ["REFERENCE_DATE_TIME"] avail).isSome

/-- Was the optional temperature variable resolved for the file? -/
def tempResolved (avail : List String) : Bool :=
  (find_variable_case_insensitive ["TEMP_ADJUSTED", "TEMP"] avail).isSome

/-- Was the optional salinity variable resolved for the file? -/
def salResolved (avail : List String) : Bool :=
  (find_variable_case_insensitive ["PSAL_ADJUSTED", "PSAL"] avail).isSome

/-- `extract_indian_ocean_data_from_file(file_path)`: resolve
variables, reject the whole file (empty row list, no exception) when a
required role is unresolved, else run the per-profile body over every
profile and concatenate the emitted rows. -/
def extract_indian_ocean_data_from_file (f : NCFile) : List Row :=
  if requiredVarsResolved f.availableVars then
    (f.profiles.map
      (extractProfileRows f.filename f.refDateStr
        (tempResolved f.availableVars) (salResolved f.availableVars))).flatten
  else []

/-- `process_argo_file(file_path)`: the same file-level structure for
the ingest variant. -/
def process_argo_file (f : NCFile) : List Row :=
  if requiredVarsResolved f.availableVars then
    (f.profiles.map
      (ingestProfileRows f.filename f.refDateStr
        (tempResolved f.availableVars) (salResolved f.availableVars))).flatten
  else []

/-- Scenario A of the specification, as one raw profile: pressure
levels `[10, 20, missing]`, temperature `[5, missing, 7]`, salinity all
missing, with valid coordinates inside the reference box and a valid
timestamp in the 2020–2025 window. -/
def scenarioAProfile : RawProfile :=
  { platform := .scalarStr "5904297", juld := .val (.fin 5),
    lat := .val (.fin (-10)), lon := .val (.fin 80),
    pressure := ⟨true, [.val (.fin 10), .val (.fin 20), .masked]⟩,
    temperature := ⟨true, [.val (.fin 5), .masked, .val (.fin 7)]⟩,
    salinity := ⟨true, [.masked, .masked, .masked]⟩ }

/-- A source file holding exactly the Scenario A profile, with all
required and optional variables resolvable and reference time
2022-03-10. -/
def scenarioAFile : NCFile :=
  { availableVars := ["PLATFORM_NUMBER", "JULD", "LATITUDE", "LONGITUDE",
      "REFERENCE_DATE_TIME", "PRES", "TEMP", "PSAL"],
    filename := "nodc_D6902758_029.nc", refDateStr := "20220310000000",
    profiles := [scenarioAProfile] }

/-- The Scenario A source file with the `JULD` variable missing, so
that a required role is unresolved. -/
def noJuldFile : NCFile :=
  { scenarioAFile with
    availableVars := ["PLATFORM_NUMBER", "LATITUDE", "LONGITUDE",
      "REFERENCE_DATE_TIME", "PRES", "TEMP", "PSAL"] }

/-- The two rows Scenario A is specified to produce (eastern Indian
Ocean coordinates, timestamp 2022-03-15 00:00 = day 19066). -/
def scenarioARows : List Row :=
  [{ platform_id := "5904297", timestamp := 19066, latitude := .fin (-10),
     longitude := .fin 80, pressure_dbar := .fin 10,
     temperature_celsius := some (.fin 5), salinity_psu := none },
   { platform_id := "5904297", timestamp := 19066, latitude := .fin (-10),
     longitude := .fin 80, pressure_dbar := .fin 20,
     temperature_celsius := none, salinity_psu := none }]

/-! ## Supporting lemmas -/

/-- `ratAdd` is rational addition. -/
theorem ratAdd_eq_add (a b : ℚ) : ratAdd a b = a + b := by
  rw [ratAdd, Rat.mkRat_eq_div]
  conv_rhs => rw [← Rat.num_div_den a, ← Rat.num_div_den b]
  push_cast
  rw [div_add_div _ _ (by exact_mod_cast a.den_ne_zero) (by exact_mod_cast b.den_ne_zero)]
  ring_nf

/-- A list of numeric elements contains no byte strings. -/
theorem numeric_no_bstr (l : List Elem) (h : l.all Elem.isNumeric = true) :
    l.any Elem.isBstr = false := by
  induction l with
  | nil => rfl
  | cons e rest ih =>
    simp only [List.all_cons, Bool.and_eq_true] at h
    simp only [List.any_cons, Bool.or_eq_false_iff]
    exact ⟨by cases e <;> simp_all [Elem.isNumeric, Elem.isBstr], ih h.2⟩

/-- Every match of the 7–8-digit search is made of digits. -/
theorem digitRun7or8_digits (cs : List Char) (m : List Char)
    (h : digitRun7or8 cs = some m) :
    7 ≤ m.length ∧ m.length ≤ 8 ∧ m.all Char.isDigit = true := by
  induction cs with
  | nil => simp [digitRun7or8] at h
  | cons c rest ih =>
    rw [digitRun7or8] at h
    by_cases hr : 7 ≤ ((c :: rest).takeWhile Char.isDigit).length
    · rw [if_pos hr] at h
      obtain rfl : (List.takeWhile Char.isDigit (c :: rest)).take 8 = m :=
        Option.some_injective _ h
      refine ⟨?_, ?_, ?_⟩
      · rw [List.length_take]
        omega
      · rw [List.length_take]
        omega
      · have hall : ∀ x ∈ (c :: rest).takeWhile Char.isDigit, Char.isDigit x = true :=
          fun x hx => List.mem_takeWhile_imp hx
        rw [List.all_eq_true]
        exact fun x hx => hall x (List.mem_of_mem_take hx)
    · rw [if_neg hr] at h
      exact ih h

/-- Characterization of an emitting pressure gate: `.ok (some p)` means
the element at `j` is in range, unmasked, not NaN, converts to `p`, and
`p` is not negative. -/
theorem pressureLevelVal_ok_some (iv : Bool) (a : MArr) (j : Nat) (p : PyFloat)
    (h : pressureLevelVal iv a j = .ok (some p)) :
    mask_check a j = false ∧
    ∃ e, a.elems[j]? = some e ∧ safe_isnan_elem e = false ∧
      scalarFloat e = some p ∧ PyFloat.lt p (.fin 0) = false := by
  unfold pressureLevelVal at h
  split at h
  · simp at h
  next hm =>
  split at h
  next hj => simp at h
  next e hj =>
  split at h
  · simp at h
  next hn =>
  split at h
  next q hc =>
    split at h
    · simp at h
    next hl =>
      obtain rfl : q = p := by simpa using h
      refine ⟨by simpa using hm, e, hj, ?_, hc, by simpa using hl⟩
      simpa [safe_isnan] using hn
  next hc =>
    split at h <;> simp at h

/-- A level whose pressure is masked, NaN, unconvertible or negative
leaves the pressure gate without a value (skipped or raised). -/
theorem pressureLevelVal_skip (iv : Bool) (a : MArr) (j : Nat)
    (h : mask_check a j = true ∨
      (∃ e, a.elems[j]? = some e ∧
        (safe_isnan (Value.scalar e) = true ∨
         safe_float_conversion (Value.scalar e) = none ∨
         (∃ q, safe_float_conversion (Value.scalar e) = some q ∧
           PyFloat.lt q (.fin 0) = true)))) :
    pressureLevelVal iv a j = .ok none ∨ pressureLevelVal iv a j = .error () := by
  unfold pressureLevelVal
  rcases h with hm | ⟨e, hj, he⟩
  · rw [if_pos hm]
    exact Or.inl rfl
  · by_cases hm : mask_check a j
    · rw [if_pos hm]
      exact Or.inl rfl
    · rw [if_neg hm]
      simp only [hj]
      rcases he with hn | hc | ⟨q, hc, hl⟩
      · rw [if_pos hn]
        exact Or.inl rfl
      · by_cases hn : safe_isnan (Value.scalar e)
        · rw [if_pos hn]; exact Or.inl rfl
        · rw [if_neg hn]
          simp only [hc]
          cases iv
          · exact Or.inl rfl
          · exact Or.inr rfl
      · by_cases hn : safe_isnan (Value.scalar e)
        · rw [if_pos hn]; exact Or.inl rfl
        · rw [if_neg hn]
          simp only [hc]
          rw [if_pos hl]
          exact Or.inl rfl

/-- Decomposition of an emitted level into its three gate results. -/
theorem levelTriple_some_parts (iv tR sR : Bool) (pa ta sa : MArr) (j : Nat)
    (p : PyFloat) (t s : Option PyFloat)
    (h : levelTriple iv tR sR pa ta sa j = some (p, t, s)) :
    pressureLevelVal iv pa j = .ok (some p) ∧
    optLevelVal iv tR ta j = .ok t ∧ optLevelVal iv sR sa j = .ok s := by
  unfold levelTriple at h
  cases hp : pressureLevelVal iv pa j with
  | error u => rw [hp] at h; simp at h
  | ok op =>
    rw [hp] at h
    cases op with
    | none => simp at h
    | some p0 =>
      cases ht : optLevelVal iv tR ta j with
      | error u => rw [ht] at h; simp at h
      | ok t0 =>
        rw [ht] at h
        cases hs : optLevelVal iv sR sa j with
        | error u => rw [hs] at h; simp at h
        | ok s0 =>
          rw [hs] at h
          simp only [Option.some.injEq, Prod.mk.injEq] at h
          obtain ⟨rfl, rfl, rfl⟩ := h
          exact ⟨rfl, rfl, rfl⟩

/-- A non-NaN float that is not below zero is at least zero. -/
theorem PyFloat.zero_le_of_not_lt (p : PyFloat) (h1 : PyFloat.isNan p = false)
    (h2 : PyFloat.lt p (.fin 0) = false) : PyFloat.le (.fin 0) p = true := by
  cases p with
  | fin q =>
    simp only [PyFloat.lt, decide_eq_false_iff_not, not_lt] at h2
    simpa [PyFloat.le] using h2
  | nan => simp [PyFloat.isNan] at h1
  | posInf => rfl
  | negInf => simp [PyFloat.lt] at h2

/-- Characterization of the optional-variable field at an emitted
level, over numeric arrays: the field is absent exactly when the
variable is unresolved, the element is masked, or the element is NaN;
a present field carries the element's own value. -/
theorem optLevelVal_cases (iv resolved : Bool) (a : MArr) (j : Nat) (t : Option PyFloat)
    (hnum : a.elems.all Elem.isNumeric = true)
    (h : optLevelVal iv resolved a j = .ok t) :
    (t = none ↔ (resolved = false ∨ mask_check a j = true ∨
      (∃ e, a.elems[j]? = some e ∧ safe_isnan (Value.scalar e) = true))) ∧
    (∀ v, t = some v → resolved = true ∧ a.elems[j]? = some (Elem.val v)) := by
  unfold optLevelVal at h
  split at h
  next hr =>
    split at h
    next hm =>
      obtain rfl : t = none := by simpa using h.symm
      exact ⟨⟨fun _ => Or.inr (Or.inl hm), fun _ => rfl⟩, by simp⟩
    next hm =>
      split at h
      next hj => simp at h
      next e hj =>
        split at h
        next hn =>
          obtain rfl : t = none := by simpa using h.symm
          exact ⟨⟨fun _ => Or.inr (Or.inr ⟨e, hj, hn⟩), fun _ => rfl⟩, by simp⟩
        next hn =>
          have he : e ∈ a.elems := List.getElem?_mem hj
          have henum : e.isNumeric = true := List.all_eq_true.mp hnum e he
          cases e with
          | masked => simp [safe_isnan, safe_isnan_elem] at hn
          | bstr s0 => simp [Elem.isNumeric] at henum
          | val x =>
            simp only [safe_float_conversion, scalarFloat] at h
            obtain rfl : t = some x := by simpa using h.symm
            constructor
            · constructor
              · intro hx
                simp at hx
              · intro hx
                rcases hx with hx | hx | ⟨e', hj', hn'⟩
                · rw [hx] at hr
                  simp at hr
                · exact absurd hx hm
                · rw [hj'] at hj
                  obtain rfl : e' = Elem.val x := by
                    simpa using hj
                  exact absurd hn' hn
            · intro v hv
              obtain rfl : x = v := by simpa using hv
              exact ⟨hr, hj⟩
  next hr =>
    obtain rfl : t = none := by simpa using h.symm
    refine ⟨⟨fun _ => Or.inl (by simpa using hr), fun _ => rfl⟩, by simp⟩

/-! ## Claim C1 -/

/-- C1: a row is emitted for a level only if the level's pressure is
present (not masked, not NaN), converts to a float, and that float is
≥ 0; conversely a level with missing, non-convertible or negative
pressure contributes no row — in both pipeline variants. -/
theorem C1_pressure_gate :
    (∀ (iv tR sR : Bool) (pa ta sa : MArr) (j : Nat)
        (p : PyFloat) (t s : Option PyFloat),
      levelTriple iv tR sR pa ta sa j = some (p, t, s) →
      mask_check pa j = false ∧
      ∃ e, pa.elems[j]? = some e ∧ safe_isnan (Value.scalar e) = false ∧
        safe_float_conversion (Value.scalar e) = some p ∧
        PyFloat.le (.fin 0) p = true) ∧
    (∀ (iv tR sR : Bool) (pa ta sa : MArr) (j : Nat),
      (mask_check pa j = true ∨
        (∃ e, pa.elems[j]? = some e ∧
          (safe_isnan (Value.scalar e) = true ∨
           safe_float_conversion (Value.scalar e) = none ∨
           (∃ q, safe_float_conversion (Value.scalar e) = some q ∧
             PyFloat.lt q (.fin 0) = true)))) →
      levelTriple iv tR sR pa ta sa j = none) := by
  constructor
  · intro iv tR sR pa ta sa j p t s h
    obtain ⟨hp, -, -⟩ := levelTriple_some_parts iv tR sR pa ta sa j p t s h
    obtain ⟨hm, e, hj, hn, hc, hl⟩ := pressureLevelVal_ok_some iv pa j p hp
    have hpnan : PyFloat.isNan p = false := by
      cases e with
      | masked => simp [scalarFloat] at hc
      | bstr s0 => simp [scalarFloat] at hc
      | val x =>
        obtain rfl : x = p := by simpa [scalarFloat] using hc
        simpa [safe_isnan_elem] using hn
    exact ⟨hm, e, hj, hn, hc, PyFloat.zero_le_of_not_lt p hpnan hl⟩
  · intro iv tR sR pa ta sa j h
    unfold levelTriple
    rcases pressureLevelVal_skip iv pa j h with hp | hp <;> rw [hp]

/-- C1 witness: in Scenario A, level 0 emits a row whose pressure is
present, convertible and nonnegative, and level 2 (masked pressure)
contributes no row. -/
theorem C1_witness :
    (mask_check scenarioAProfile.pressure 0 = false ∧
      ∃ e, scenarioAProfile.pressure.elems[0]? = some e ∧
        safe_isnan (Value.scalar e) = false ∧
        safe_float_conversion (Value.scalar e) = some (PyFloat.fin 10) ∧
        PyFloat.le (.fin 0) (PyFloat.fin 10) = true) ∧
    levelTriple false true true scenarioAProfile.pressure scenarioAProfile.temperature
      scenarioAProfile.salinity 2 = none :=
  ⟨C1_pressure_gate.1 false true true scenarioAProfile.pressure
      scenarioAProfile.temperature scenarioAProfile.salinity 0
      (PyFloat.fin 10) (some (PyFloat.fin 5)) none (by decide),
   C1_pressure_gate.2 false true true scenarioAProfile.pressure
      scenarioAProfile.temperature scenarioAProfile.salinity 2
      (Or.inl (by decide))⟩

/-! ## Claim C3 -/

/-- C3 counterexample: the claim defines a missing optional value as
"masked or non-finite", but a positive-infinite temperature is not NaN,
so the emitted row carries `+inf` instead of an absent field. -/
theorem C3_counterexample :
    levelTriple false true false ⟨true, [Elem.val (PyFloat.fin 10)]⟩
      ⟨true, [Elem.val PyFloat.posInf]⟩ ⟨true, [Elem.masked]⟩ 0 =
      some (PyFloat.fin 10, some PyFloat.posInf, none) ∧
    PyFloat.isFinite PyFloat.posInf = false ∧
    some PyFloat.posInf ≠ (none : Option PyFloat) := by
  refine ⟨by decide, rfl, by simp⟩

/-- C3 (amended): at every emitted level of either variant, over
numeric arrays, the temperature and salinity fields are determined
independently: each is absent exactly when its variable was unresolved
or its element at the level is missing (masked or NaN — not all
non-finite values), and present fields carry the element's own value;
Scenario A yields exactly its two specified rows in both pipelines. -/
theorem C3_optional_fields_independent :
    (∀ (iv tR sR : Bool) (pa ta sa : MArr) (j : Nat)
        (p : PyFloat) (t s : Option PyFloat),
      ta.elems.all Elem.isNumeric = true →
      sa.elems.all Elem.isNumeric = true →
      levelTriple iv tR sR pa ta sa j = some (p, t, s) →
      ((t = none ↔ (tR = false ∨ mask_check ta j = true ∨
          (∃ e, ta.elems[j]? = some e ∧ safe_isnan (Value.scalar e) = true))) ∧
       (∀ v, t = some v → tR = true ∧ ta.elems[j]? = some (Elem.val v)) ∧
       (s = none ↔ (sR = false ∨ mask_check sa j = true ∨
          (∃ e, sa.elems[j]? = some e ∧ safe_isnan (Value.scalar e) = true))) ∧
       (∀ v, s = some v → sR = true ∧ sa.elems[j]? = some (Elem.val v)))) ∧
    extract_indian_ocean_data_from_file scenarioAFile = scenarioARows ∧
    process_argo_file scenarioAFile = scenarioARows := by
  refine ⟨?_, by decide, by decide⟩
  intro iv tR sR pa ta sa j p t s hnt hns h
  obtain ⟨-, ht, hs⟩ := levelTriple_some_parts iv tR sR pa ta sa j p t s h
  obtain ⟨ht1, ht2⟩ := optLevelVal_cases iv tR ta j t hnt ht
  obtain ⟨hs1, hs2⟩ := optLevelVal_cases iv sR sa j s hns hs
  exact ⟨ht1, ht2, hs1, hs2⟩

/-- C3 witness: Scenario A's level 1 row has an absent temperature
because its temperature element is masked. -/
theorem C3_witness :
    ((none : Option PyFloat) = none ↔ (true = false ∨
      mask_check scenarioAProfile.temperature 1 = true ∨
      (∃ e, scenarioAProfile.temperature.elems[1]? = some e ∧
        safe_isnan (Value.scalar e) = true))) ∧
    extract_indian_ocean_data_from_file scenarioAFile = scenarioARows :=
  ⟨((C3_optional_fields_independent.1 false true true scenarioAProfile.pressure
      scenarioAProfile.temperature scenarioAProfile.salinity 1
      (PyFloat.fin 20) none none (by decide) (by decide) (by decide)).1),
   C3_optional_fields_independent.2.1⟩

/-! ## Claim C2 -/

/-- C2: a profile whose time-offset (JULD) value is masked or
non-finite emits zero rows in both variants, regardless of its
coordinates or pressure levels.  Masked and NaN offsets are rejected by
the explicit guard; infinite offsets are rejected because the
day-offset conversion raises and the per-profile handler skips the
profile — in every case before any row is emitted. -/
theorem C2_invalid_juld_zero_rows (fn ref : String) (tR sR : Bool) (p : RawProfile)
    (h : p.juld = Elem.masked ∨
      ∃ x, p.juld = Elem.val x ∧ PyFloat.isFinite x = false) :
    extractProfileRows fn ref tR sR p = [] ∧ ingestProfileRows fn ref tR sR p = [] := by
  constructor
  · cases hlat : scalarFloat p.lat with
    | none => simp [extractProfileRows, hlat]
    | some lat =>
      cases hlon : scalarFloat p.lon with
      | none => simp [extractProfileRows, hlat, hlon]
      | some lon =>
        cases hrd : parseRefDate ref with
        | none => simp [extractProfileRows, hlat, hlon, hrd]
        | some base =>
          rcases h with hm | ⟨x, hx, hfin⟩
          · have hgg : (p.juld.isMasked || safe_isnan (Value.scalar p.juld)) = true := by
              rw [hm]
              rfl
            simp [extractProfileRows, hlat, hlon, hrd, hgg]
          · cases x with
            | fin q => simp [PyFloat.isFinite] at hfin
            | nan =>
              have hgg : (p.juld.isMasked || safe_isnan (Value.scalar p.juld)) = true := by
                rw [hx]
                rfl
              simp [extractProfileRows, hlat, hlon, hrd, hgg]
            | posInf =>
              have hgg : (p.juld.isMasked || safe_isnan (Value.scalar p.juld)) = false := by
                rw [hx]
                rfl
              have hjx : scalarFloat p.juld = some PyFloat.posInf := by
                rw [hx]
                rfl
              simp [extractProfileRows, hlat, hlon, hrd, hgg, hjx, toTimedeltaDays]
            | negInf =>
              have hgg : (p.juld.isMasked || safe_isnan (Value.scalar p.juld)) = false := by
                rw [hx]
                rfl
              have hjx : scalarFloat p.juld = some PyFloat.negInf := by
                rw [hx]
                rfl
              simp [extractProfileRows, hlat, hlon, hrd, hgg, hjx, toTimedeltaDays]
  · cases hlat : scalarFloat p.lat with
    | none => simp [ingestProfileRows, hlat]
    | some lat =>
      cases hlon : scalarFloat p.lon with
      | none => simp [ingestProfileRows, hlat, hlon]
      | some lon =>
        cases hrd : parseRefDate ref with
        | none => simp [ingestProfileRows, hlat, hlon, hrd]
        | some base =>
          rcases h with hm | ⟨x, hx, hfin⟩
          · have hgg : (p.juld.isMasked || safe_isnan (Value.scalar p.juld)) = true := by
              rw [hm]
              rfl
            simp [ingestProfileRows, hlat, hlon, hrd, hgg]
          · cases x with
            | fin q => simp [PyFloat.isFinite] at hfin
            | nan =>
              have hgg : (p.juld.isMasked || safe_isnan (Value.scalar p.juld)) = true := by
                rw [hx]
                rfl
              simp [ingestProfileRows, hlat, hlon, hrd, hgg]
            | posInf =>
              have hgg : (p.juld.isMasked || safe_isnan (Value.scalar p.juld)) = false := by
                rw [hx]
                rfl
              have hjx : scalarFloat p.juld = some PyFloat.posInf := by
                rw [hx]
                rfl
              simp [ingestProfileRows, hlat, hlon, hrd, hgg, hjx, toTimedeltaDays]
            | negInf =>
              have hgg : (p.juld.isMasked || safe_isnan (Value.scalar p.juld)) = false := by
                rw [hx]
                rfl
              have hjx : scalarFloat p.juld = some PyFloat.negInf := by
                rw [hx]
                rfl
              simp [ingestProfileRows, hlat, hlon, hrd, hgg, hjx, toTimedeltaDays]

/-- C2 witness: the Scenario A profile with a positive-infinite JULD —
an otherwise fully valid profile — emits zero rows in both variants. -/
theorem C2_witness :
    extractProfileRows "nodc_D6902758_029.nc" "20220310000000" true true
      { scenarioAProfile with juld := Elem.val PyFloat.posInf } = [] ∧
    ingestProfileRows "nodc_D6902758_029.nc" "20220310000000" true true
      { scenarioAProfile with juld := Elem.val PyFloat.posInf } = [] :=
  C2_invalid_juld_zero_rows _ _ _ _ _ (Or.inr ⟨PyFloat.posInf, rfl, rfl⟩)

/-! ## Claim C4 -/

/-- C4: with the geographic filter (present only in the extract
variant), a profile whose coordinates fall outside the inclusive
reference box emits zero rows; the ingest variant has no geographic
filter, and its row count does not depend on the (non-NaN) coordinates
at all; the reference point latitude 10, longitude 200 lies outside the
reference box. -/
theorem C4_geographic_filter :
    (∀ (fn ref : String) (tR sR : Bool) (p : RawProfile) (lat lon : PyFloat),
      p.lat = Elem.val lat → p.lon = Elem.val lon →
      is_indian_ocean lat lon = false →
      extractProfileRows fn ref tR sR p = []) ∧
    (∀ (fn ref : String) (tR sR : Bool) (p : RawProfile) (lat1 lon1 lat2 lon2 : PyFloat),
      lat1.isNan = false → lon1.isNan = false → lat2.isNan = false → lon2.isNan = false →
      (ingestProfileRows fn ref tR sR
        { p with lat := Elem.val lat1, lon := Elem.val lon1 }).length =
      (ingestProfileRows fn ref tR sR
        { p with lat := Elem.val lat2, lon := Elem.val lon2 }).length) ∧
    is_indian_ocean (PyFloat.fin 10) (PyFloat.fin 200) = false := by
  refine ⟨?_, ?_, by decide⟩
  · intro fn ref tR sR p lat lon hlat hlon hbox
    have hslat : scalarFloat p.lat = some lat := by
      rw [hlat]
      rfl
    have hslon : scalarFloat p.lon = some lon := by
      rw [hlon]
      rfl
    cases hrd : parseRefDate ref with
    | none => simp [extractProfileRows, hslat, hslon, hrd]
    | some base =>
      cases hg : p.juld.isMasked || safe_isnan (.scalar p.juld) with
      | true => simp [extractProfileRows, hslat, hslon, hrd, hg]
      | false =>
        cases hjx : scalarFloat p.juld with
        | none => simp [extractProfileRows, hslat, hslon, hrd, hg, hjx]
        | some jx =>
          cases hoff : toTimedeltaDays jx with
          | error u =>
            simp [extractProfileRows, hslat, hslon, hrd, hg, hjx, hoff]
          | ok off =>
            cases hy : is_year_range_2020_2025 (ratAdd base off) with
            | false =>
              simp [extractProfileRows, hslat, hslon, hrd, hg, hjx, hoff, hy]
            | true =>
              simp [extractProfileRows, hslat, hslon, hrd, hg, hjx, hoff, hy, hbox]
  · intro fn ref tR sR p lat1 lon1 lat2 lon2 h1 h2 h3 h4
    have e1 : scalarFloat ({ p with lat := Elem.val lat1, lon := Elem.val lon1 }
        : RawProfile).lat = some lat1 := rfl
    have e2 : scalarFloat ({ p with lat := Elem.val lat1, lon := Elem.val lon1 }
        : RawProfile).lon = some lon1 := rfl
    have e3 : scalarFloat ({ p with lat := Elem.val lat2, lon := Elem.val lon2 }
        : RawProfile).lat = some lat2 := rfl
    have e4 : scalarFloat ({ p with lat := Elem.val lat2, lon := Elem.val lon2 }
        : RawProfile).lon = some lon2 := rfl
    cases hrd : parseRefDate ref with
    | none => simp [ingestProfileRows, e1, e2, e3, e4, hrd]
    | some base =>
      cases hg : p.juld.isMasked || safe_isnan (.scalar p.juld) with
      | true => simp [ingestProfileRows, e1, e2, e3, e4, hrd, hg]
      | false =>
        cases hjx : scalarFloat p.juld with
        | none => simp [ingestProfileRows, e1, e2, e3, e4, hrd, hg, hjx]
        | some jx =>
          cases hoff : toTimedeltaDays jx with
          | error u => simp [ingestProfileRows, e1, e2, e3, e4, hrd, hg, hjx, hoff]
          | ok off =>
            cases hvc : validPressureCount p.pressure with
            | zero => simp [ingestProfileRows, e1, e2, e3, e4, hrd, hg, hjx, hoff, hvc]
            | succ k =>
              simp [ingestProfileRows, e1, e2, e3, e4, hrd, hg, hjx, hoff, hvc,
                h1, h2, h3, h4, emitRows]

/-- C4 witness: the Scenario A profile moved to latitude 10, longitude
200 emits zero rows through the extract pipeline. -/
theorem C4_witness :
    extractProfileRows "nodc_D6902758_029.nc" "20220310000000" true true
      { scenarioAProfile with
        lat := Elem.val (PyFloat.fin 10)
        lon := Elem.val (PyFloat.fin 200) } = [] :=
  C4_geographic_filter.1 _ _ _ _ _ _ _ rfl rfl (by decide)

/-! ## Claim C5 -/

/-- C5 counterexample: the claim states a profile with non-finite
(NaN or ±∞) latitude emits zero rows, but the ingest variant checks
coordinates with `np.isnan`, which is false on `+inf`: the Scenario A
profile with latitude `+inf` emits its two rows. -/
theorem C5_counterexample :
    ingestProfileRows "nodc_D6902758_029.nc" "20220310000000" true true
      { scenarioAProfile with lat := Elem.val PyFloat.posInf } =
      [{ platform_id := "5904297", timestamp := 19066, latitude := PyFloat.posInf,
         longitude := .fin 80, pressure_dbar := .fin 10,
         temperature_celsius := some (.fin 5), salinity_psu := none },
       { platform_id := "5904297", timestamp := 19066, latitude := PyFloat.posInf,
         longitude := .fin 80, pressure_dbar := .fin 20,
         temperature_celsius := none, salinity_psu := none }] ∧
    PyFloat.isFinite PyFloat.posInf = false := by
  exact ⟨by decide, rfl⟩

/-- C5 (amended): a profile whose latitude or longitude is NaN emits
zero rows in both variants (the ingest variant by its explicit
`np.isnan` coordinate guard, the extract variant because NaN fails the
bounding-box comparison chain); infinite coordinates are only rejected
by the extract variant's bounding box, not by the coordinate guard. -/
theorem C5_nan_coordinates_rejected (fn ref : String) (tR sR : Bool) (p : RawProfile)
    (h : (∃ x, p.lat = Elem.val x ∧ PyFloat.isNan x = true) ∨
         (∃ y, p.lon = Elem.val y ∧ PyFloat.isNan y = true)) :
    extractProfileRows fn ref tR sR p = [] ∧ ingestProfileRows fn ref tR sR p = [] := by
  have hbox : ∀ lat lon : PyFloat, lat.isNan = true ∨ lon.isNan = true →
      is_indian_ocean lat lon = false := by
    intro lat lon hx
    rcases hx with hx | hx
    · cases lat <;> simp_all [PyFloat.isNan, is_indian_ocean, PyFloat.le]
    · cases lon <;> simp_all [PyFloat.isNan, is_indian_ocean, PyFloat.le]
  constructor
  · cases hlat : scalarFloat p.lat with
    | none => simp [extractProfileRows, hlat]
    | some lat =>
      cases hlon : scalarFloat p.lon with
      | none => simp [extractProfileRows, hlat, hlon]
      | some lon =>
        have hnan : lat.isNan = true ∨ lon.isNan = true := by
          rcases h with ⟨x, hx, hn⟩ | ⟨y, hy, hn⟩
          · left
            rw [hx] at hlat
            obtain rfl : x = lat := by simpa [scalarFloat] using hlat
            exact hn
          · right
            rw [hy] at hlon
            obtain rfl : y = lon := by simpa [scalarFloat] using hlon
            exact hn
        cases hrd : parseRefDate ref with
        | none => simp [extractProfileRows, hlat, hlon, hrd]
        | some base =>
          cases hg : p.juld.isMasked || safe_isnan (.scalar p.juld) with
          | true => simp [extractProfileRows, hlat, hlon, hrd, hg]
          | false =>
            cases hjx : scalarFloat p.juld with
            | none => simp [extractProfileRows, hlat, hlon, hrd, hg, hjx]
            | some jx =>
              cases hoff : toTimedeltaDays jx with
              | error u => simp [extractProfileRows, hlat, hlon, hrd, hg, hjx, hoff]
              | ok off =>
                cases hy : is_year_range_2020_2025 (ratAdd base off) with
                | false =>
                  simp [extractProfileRows, hlat, hlon, hrd, hg, hjx, hoff, hy]
                | true =>
                  simp [extractProfileRows, hlat, hlon, hrd, hg, hjx, hoff, hy,
                    hbox lat lon hnan]
  · cases hlat : scalarFloat p.lat with
    | none => simp [ingestProfileRows, hlat]
    | some lat =>
      cases hlon : scalarFloat p.lon with
      | none => simp [ingestProfileRows, hlat, hlon]
      | some lon =>
        have hnan : (lat.isNan || lon.isNan) = true := by
          rcases h with ⟨x, hx, hn⟩ | ⟨y, hy, hn⟩
          · rw [hx] at hlat
            obtain rfl : x = lat := by simpa [scalarFloat] using hlat
            simp [hn]
          · rw [hy] at hlon
            obtain rfl : y = lon := by simpa [scalarFloat] using hlon
            simp [hn]
        cases hrd : parseRefDate ref with
        | none => simp [ingestProfileRows, hlat, hlon, hrd]
        | some base =>
          cases hg : p.juld.isMasked || safe_isnan (.scalar p.juld) with
          | true => simp [ingestProfileRows, hlat, hlon, hrd, hg]
          | false =>
            cases hjx : scalarFloat p.juld with
            | none => simp [ingestProfileRows, hlat, hlon, hrd, hg, hjx]
            | some jx =>
              cases hoff : toTimedeltaDays jx with
              | error u => simp [ingestProfileRows, hlat, hlon, hrd, hg, hjx, hoff]
              | ok off => simp [ingestProfileRows, hlat, hlon, hrd, hg, hjx, hoff, hnan]

/-- C5 witness: the Scenario A profile with NaN latitude emits zero
rows in both variants. -/
theorem C5_witness :
    extractProfileRows "nodc_D6902758_029.nc" "20220310000000" true true
      { scenarioAProfile with lat := Elem.val PyFloat.nan } = [] ∧
    ingestProfileRows "nodc_D6902758_029.nc" "20220310000000" true true
      { scenarioAProfile with lat := Elem.val PyFloat.nan } = [] :=
  C5_nan_coordinates_rejected _ _ _ _ _ (Or.inl ⟨PyFloat.nan, rfl, rfl⟩)

/-! ## Claim C6 -/

/-- C6: when any required role (pressure, platform id, time offset,
latitude, longitude, reference time) has no alias matching a variable
of the source, the whole file is rejected: both per-file extraction
functions return the empty row list (they are total functions — no
exception escapes to the batch) and no profile is processed. -/
theorem C6_unresolved_required_rejects_file (f : NCFile)
    (h : find_variable_case_insensitive ["PRES_ADJUSTED", "PRES"] f.availableVars = none ∨
      find_variable_case_insensitive ["PLATFORM_NUMBER", "FLOAT_SERIAL_NO", "WMO_INST_TYPE"]
        f.availableVars = none ∨
      find_variable_case_insensitive ["JULD"] f.availableVars = none ∨
      find_variable_case_insensitive ["LATITUDE"] f.availableVars = none ∨
      find_variable_case_insensitive ["LONGITUDE"] f.availableVars = none ∨
      find_variable_case_insensitive ["REFERENCE_DATE_TIME"] f.availableVars = none) :
    extract_indian_ocean_data_from_file f = [] ∧ process_argo_file f = [] := by
  have hr : requiredVarsResolved f.availableVars = false := by
    unfold requiredVarsResolved
    rcases h with h | h | h | h | h | h <;> simp [h]
  exact ⟨by simp [extract_indian_ocean_data_from_file, hr],
    by simp [process_argo_file, hr]⟩

/-- C6 witness: the Scenario A file without its `JULD` variable — whose
single profile would otherwise emit two rows — yields the empty row
list from both per-file functions. -/
theorem C6_witness :
    find_variable_case_insensitive ["JULD"] noJuldFile.availableVars = none ∧
    extract_indian_ocean_data_from_file noJuldFile = [] ∧
    process_argo_file noJuldFile = [] :=
  ⟨by decide,
   (C6_unresolved_required_rejects_file noJuldFile
      (Or.inr (Or.inr (Or.inl (by decide))))).1,
   (C6_unresolved_required_rejects_file noJuldFile
      (Or.inr (Or.inr (Or.inl (by decide))))).2⟩

/-! ## Claim C9 -/

/-- C9 counterexample: the claim states that `safe_isnan` treats
non-finite values as missing, but `np.isnan` is false on `+inf`: a
positive-infinite value is non-finite yet classified as present. -/
theorem C9_counterexample :
    safe_isnan (Value.scalar (Elem.val PyFloat.posInf)) = false ∧
    PyFloat.isFinite PyFloat.posInf = false := by
  decide

/-- C9 (amended): `mask_check` and `safe_isnan` are total Boolean
functions (they never raise); `mask_check` is true exactly on an
in-range masked slot of a masked array, and scalar `safe_isnan` is true
exactly on a masked slot or a NaN value — infinite values are treated
as present, not missing. -/
theorem C9_missing_checks_masked_and_nan :
    (∀ (a : MArr) (idx : Nat),
      mask_check a idx = (a.hasMask && decide (a.elems[idx]? = some Elem.masked))) ∧
    safe_isnan (Value.scalar Elem.masked) = true ∧
    (∀ x : PyFloat, safe_isnan (Value.scalar (Elem.val x)) = x.isNan) ∧
    (∀ s : String, safe_isnan (Value.scalar (Elem.bstr s)) = false) := by
  refine ⟨?_, rfl, fun x => rfl, fun s => rfl⟩
  intro a idx
  unfold mask_check
  cases hm : a.hasMask with
  | false => simp
  | true =>
    simp only [Bool.true_and, if_true]
    cases h : a.elems[idx]? with
    | none => simp
    | some e => cases e <;> simp [Elem.isMasked]

/-! ## Claim C10 -/

/-- C10: a value whose missingness cannot be determined is classified
as present: `mask_check` is false on an array without a mask attribute
and on a failing (out-of-range) mask lookup, and `safe_isnan` is false
on non-numeric values, where the NaN test itself raises. -/
theorem C10_unknown_missingness_is_present :
    (∀ (a : MArr) (idx : Nat), a.hasMask = false → mask_check a idx = false) ∧
    (∀ (a : MArr) (idx : Nat), a.elems[idx]? = none → mask_check a idx = false) ∧
    (∀ s : String, safe_isnan (Value.scalar (Elem.bstr s)) = false) ∧
    (∀ a : MArr, a.elems.any Elem.isBstr = true → safe_isnan (Value.arr a) = false) := by
  refine ⟨?_, ?_, fun s => rfl, ?_⟩
  · intro a idx h
    unfold mask_check
    simp [h]
  · intro a idx h
    unfold mask_check
    simp [h]
  · intro a h
    unfold safe_isnan
    simp [h]

/-- C10 witness at concrete inputs. -/
theorem C10_witness :
    mask_check ⟨false, [Elem.masked]⟩ 0 = false ∧
    mask_check ⟨true, [Elem.masked]⟩ 3 = false ∧
    safe_isnan (Value.scalar (Elem.bstr "A")) = false ∧
    safe_isnan (Value.arr ⟨false, [Elem.bstr "x", Elem.val (PyFloat.fin 1)]⟩) = false :=
  ⟨C10_unknown_missingness_is_present.1 _ 0 rfl,
   C10_unknown_missingness_is_present.2.1 _ 3 rfl,
   C10_unknown_missingness_is_present.2.2.1 "A",
   C10_unknown_missingness_is_present.2.2.2 _ rfl⟩

/-! ## Claim C8 -/

/-- C8 counterexample: on a genuinely multi-element value whose
elements are all missing, the claim states `to_float` reports missing
rather than raising — but the ingest variant raises a `ValueError`
(the extract variant does return `None`). -/
theorem C8_counterexample :
    safe_float_conversion_ingest (Value.arr ⟨true, [Elem.masked, Elem.masked]⟩) =
      Except.error () ∧
    safe_float_conversion (Value.arr ⟨true, [Elem.masked, Elem.masked]⟩) = none :=
  ⟨rfl, rfl⟩

/-- C8 (amended): `safe_float_conversion` returns the plain float of a
numeric scalar and of the single element of a size-1 array-like; for a
genuinely multi-element value it returns the float of the first
non-missing element when one exists (mask-based for masked arrays,
NaN-based for plain numeric arrays); when every element is missing the
extract variant reports missing (`None`) while the ingest variant
raises (its caller catches this per level). -/
theorem C8_to_float_behavior :
    (∀ x : PyFloat,
      safe_float_conversion (Value.scalar (Elem.val x)) = some x ∧
      safe_float_conversion_ingest (Value.scalar (Elem.val x)) = Except.ok x) ∧
    (∀ (m : Bool) (x : PyFloat),
      safe_float_conversion (Value.arr ⟨m, [Elem.val x]⟩) = some x ∧
      safe_float_conversion_ingest (Value.arr ⟨m, [Elem.val x]⟩) = Except.ok x) ∧
    (∀ (a : MArr) (x : PyFloat), a.hasMask = true → a.elems.length ≠ 1 →
      a.elems.find? (fun e => !e.isMasked) = some (Elem.val x) →
      safe_float_conversion (Value.arr a) = some x ∧
      safe_float_conversion_ingest (Value.arr a) = Except.ok x) ∧
    (∀ a : MArr, a.hasMask = true → a.elems.length ≠ 1 →
      a.elems.find? (fun e => !e.isMasked) = none →
      safe_float_conversion (Value.arr a) = none ∧
      safe_float_conversion_ingest (Value.arr a) = Except.error ()) ∧
    (∀ (a : MArr) (x : PyFloat), a.hasMask = false → a.elems.length ≠ 1 →
      a.elems.all Elem.isNumeric = true →
      a.elems.find? (fun e => !safe_isnan_elem e) = some (Elem.val x) →
      safe_float_conversion (Value.arr a) = some x ∧
      safe_float_conversion_ingest (Value.arr a) = Except.ok x) ∧
    (∀ a : MArr, a.hasMask = false → a.elems.length ≠ 1 →
      a.elems.all Elem.isNumeric = true →
      a.elems.find? (fun e => !safe_isnan_elem e) = none →
      safe_float_conversion (Value.arr a) = none ∧
      safe_float_conversion_ingest (Value.arr a) = Except.error ()) := by
  refine ⟨fun x => ⟨rfl, rfl⟩, fun m x => ⟨rfl, rfl⟩, ?_, ?_, ?_, ?_⟩
  · intro a x h1 h2 h3
    constructor
    · unfold safe_float_conversion
      simp [h1, h2, h3, scalarFloat]
    · unfold safe_float_conversion_ingest
      simp [h1, h2, h3, scalarFloat]
  · intro a h1 h2 h3
    constructor
    · unfold safe_float_conversion
      simp [h1, h2, h3]
    · unfold safe_float_conversion_ingest
      simp [h1, h2, h3]
  · intro a x h1 h2 hnum h3
    have hb := numeric_no_bstr a.elems hnum
    constructor
    · unfold safe_float_conversion
      simp [h1, h2, h3, hb, scalarFloat]
    · unfold safe_float_conversion_ingest
      simp [h1, h2, h3, hb, scalarFloat]
  · intro a h1 h2 hnum h3
    have hb := numeric_no_bstr a.elems hnum
    constructor
    · unfold safe_float_conversion
      simp [h1, h2, h3, hb]
    · unfold safe_float_conversion_ingest
      simp [h1, h2, h3, hb]

/-- C8 witness at concrete inputs. -/
theorem C8_witness :
    safe_float_conversion (Value.scalar (Elem.val (PyFloat.fin 7))) = some (PyFloat.fin 7) ∧
    safe_float_conversion (Value.arr ⟨true, [Elem.val (PyFloat.fin 3)]⟩) =
      some (PyFloat.fin 3) ∧
    safe_float_conversion (Value.arr ⟨true, [Elem.masked, Elem.val (PyFloat.fin 4)]⟩) =
      some (PyFloat.fin 4) ∧
    safe_float_conversion (Value.arr ⟨false, [Elem.val PyFloat.nan, Elem.val (PyFloat.fin 6)]⟩)
      = some (PyFloat.fin 6) ∧
    safe_float_conversion_ingest
      (Value.arr ⟨false, [Elem.val PyFloat.nan, Elem.val PyFloat.nan]⟩) = Except.error () :=
  ⟨(C8_to_float_behavior.1 (PyFloat.fin 7)).1,
   (C8_to_float_behavior.2.1 true (PyFloat.fin 3)).1,
   (C8_to_float_behavior.2.2.1 ⟨true, [Elem.masked, Elem.val (PyFloat.fin 4)]⟩
      (PyFloat.fin 4) rfl (by decide) rfl).1,
   (C8_to_float_behavior.2.2.2.2.1 ⟨false, [Elem.val PyFloat.nan, Elem.val (PyFloat.fin 6)]⟩
      (PyFloat.fin 6) rfl (by decide) rfl rfl).1,
   (C8_to_float_behavior.2.2.2.2.2 ⟨false, [Elem.val PyFloat.nan, Elem.val PyFloat.nan]⟩
      rfl (by decide) rfl rfl).2⟩

/-! ## Claim C7 -/

/-- C7 counterexample: when the decoded id is empty and the filename
contains no 7–8-digit run, the claim states the identifier is the
filename with its extension removed; for `"abcD.nc"` that would be
`"abcD"`, but the ingest variant also strips `"nodc_"`, `"D"` and `"R"`
and produces `"abc"`. -/
theorem C7_counterexample :
    digitRun7or8 "abcD.nc".toList = none ∧
    platform_id_ingest (PlatformRaw.scalarStr "") "abcD.nc" = "abc" ∧
    ("abc" : String) ≠ "abcD" := by
  decide

/-- C7 (amended): the decoded id (codes joined skipping spaces, then
trimmed) is used when non-empty and not `"None"`; otherwise the first
7–8-digit run of the filename (always 7–8 digits when found); otherwise
the extract variant uses the filename with `".nc"` removed while the
ingest variant additionally strips `"nodc_"`, `"D"` and `"R"`. -/
theorem C7_platform_identity :
    decodePlatformRaw (PlatformRaw.chars ["1", "2", "3", " ", " "]) = "123" ∧
    platform_id_extract (PlatformRaw.chars []) "nodc_D6902758_029.nc" = "6902758" ∧
    platform_id_ingest (PlatformRaw.chars []) "nodc_D6902758_029.nc" = "6902758" ∧
    (∀ (raw : PlatformRaw) (fn : String),
      decodePlatformRaw raw ≠ "" → decodePlatformRaw raw ≠ "None" →
      platform_id_extract raw fn = decodePlatformRaw raw ∧
      platform_id_ingest raw fn = decodePlatformRaw raw) ∧
    (∀ (raw : PlatformRaw) (fn : String) (m : List Char),
      (decodePlatformRaw raw = "" ∨ decodePlatformRaw raw = "None") →
      digitRun7or8 fn.toList = some m →
      platform_id_extract raw fn = String.mk m ∧
      platform_id_ingest raw fn = String.mk m ∧
      7 ≤ m.length ∧ m.length ≤ 8 ∧ m.all Char.isDigit = true) ∧
    (∀ (raw : PlatformRaw) (fn : String),
      (decodePlatformRaw raw = "" ∨ decodePlatformRaw raw = "None") →
      digitRun7or8 fn.toList = none →
      platform_id_extract raw fn = pyReplace fn ".nc" "" ∧
      platform_id_ingest raw fn =
        pyReplace (pyReplace (pyReplace (pyReplace fn ".nc" "") "nodc_" "") "D" "") "R" "") := by
  refine ⟨by decide, by decide, by decide, ?_, ?_, ?_⟩
  · intro raw fn h1 h2
    constructor
    · unfold platform_id_extract
      simp [h1, h2]
    · unfold platform_id_ingest
      simp [h1, h2]
  · intro raw fn m h1 h2
    have hd := digitRun7or8_digits fn.toList m h2
    refine ⟨?_, ?_, hd.1, hd.2.1, hd.2.2⟩
    · unfold platform_id_extract
      rw [if_pos h1, h2]
    · unfold platform_id_ingest
      rw [if_pos h1, h2]
  · intro raw fn h1 h2
    constructor
    · unfold platform_id_extract
      rw [if_pos h1, h2]
    · unfold platform_id_ingest
      rw [if_pos h1, h2]

/-- C7 witness at concrete inputs. -/
theorem C7_witness :
    platform_id_extract (PlatformRaw.scalarStr " 5904297 ") "whatever.nc" = "5904297" ∧
    platform_id_extract (PlatformRaw.scalarStr "None") "nodc_D6902758_029.nc" = "6902758" ∧
    platform_id_extract (PlatformRaw.scalarStr "") "abcD.nc" = "abcD" :=
  ⟨(C7_platform_identity.2.2.2.1 _ "whatever.nc" (by decide) (by decide)).1,
   ((C7_platform_identity.2.2.2.2.1 _ "nodc_D6902758_029.nc"
      ['6', '9', '0', '2', '7', '5', '8'] (Or.inr (by decide)) (by decide)).1),
   (C7_platform_identity.2.2.2.2.2 _ "abcD.nc" (Or.inl (by decide)) (by decide)).1⟩

end Argo
